import Mathlib

/-!
Verification of the message-relay core of `src/main.py` (a Telegram bot that
forwards user text to the OpenRouter chat-completions endpoint and replies
with the generated text).

The handler `generate_document` (src/main.py lines 35-79) is straight-line
code with one `try/except requests.exceptions.RequestException/except
Exception` block.  We embed it as a pure function from its configuration, the
inbound user text and an oracle describing the behaviour of its three
external effects (the acknowledgment send, the HTTP POST, the final reply
send) to a trace recording every message sent to the chat, every outbound
HTTP call issued, and whether the handler returned normally or let an
exception escape.
-/

namespace AiTelegramAgent

/-- One entry of the `messages` list of the completion request body. -/
structure Message where
  role : String
  content : String
deriving Repr, DecidableEq

/-- The completion request body built in src/main.py lines 48-54. -/
structure CompletionRequest where
  model : String
  messages : List Message
deriving Repr, DecidableEq

/-- SYSTEM_PROMPT, src/main.py lines 27-32 (four adjacent string literals,
concatenated by Python; `\\|` in the source denotes a backslash followed by a
pipe). -/
def SYSTEM_PROMPT : String :=
  "Ты — высококвалифицированный ИИ-агент по созданию документов и данных. " ++
  "Твоя задача — проанализировать запрос пользователя и создать готовый документ, текст или таблицу. " ++
  "Если пользователь описывает данные (списки, цифры, сравнения), сгенерируй таблицу, используя **строгий формат Markdown** (с вертикальными чертами \\| и дефисами -). " ++
  "Отвечай только сгенерированным контентом."

/-- OPENROUTER_URL, src/main.py line 22. -/
def OPENROUTER_URL : String := "https://openrouter.ai/api/v1/chat/completions"

/-- The four fixed chat messages of src/main.py: the configuration error
(line 41). -/
def configErrorMsg : String := "Ошибка: Не настроен ключ OpenRouter API или имя модели."

/-- The acknowledgment text sent at src/main.py line 45. -/
def ackMsg : String := "⏳ Запрос отправлен. Идет генерация документа..."

/-- The leading fragment of the RequestException reply, src/main.py line 76:
the full reply is this fragment followed by `str(e)`. -/
def transportErrLead : String := "Произошла ошибка при обращении к AI: "

/-- The generic reply of the `except Exception` branch, src/main.py line 79. -/
def genericErrMsg : String := "Произошла неизвестная ошибка. Попробуйте снова."

/-- An environment: `os.environ.get k` is `env k`, `none` when unset. -/
def os_environ_get (env : String → Option String) (k : String) : Option String :=
  env k

/-- The two module-level configuration globals the handler reads,
src/main.py lines 18 and 24. -/
structure Config where
  OPENROUTER_KEY : Option String
  MODEL_NAME : Option String
deriving Repr, DecidableEq

/-- How the globals are initialised from the environment:
`OPENROUTER_KEY = os.environ.get("OPENROUTER_API_KEY")` (line 18) and
`MODEL_NAME = os.environ.get("MODEL")` (line 24).  Note line 24 passes no
default value to `os.environ.get` (contrast `PORT` on line 20, which passes
`8080`). -/
def Config.ofEnv (env : String → Option String) : Config :=
  { OPENROUTER_KEY := os_environ_get env "OPENROUTER_API_KEY"
  , MODEL_NAME := os_environ_get env "MODEL" }

/-- Python truthiness of an optional string: `not x` is `True` exactly when
`x` is `None` or the empty string. -/
def pyFalsy : Option String → Bool
  | none => true
  | some s => s == ""

/-- A JSON value, the result of `response.json()`. -/
inductive Json where
  | null
  | bool (b : Bool)
  | num (n : Int)
  | str (s : String)
  | arr (elems : List Json)
  | obj (fields : List (String × Json))
deriving Repr

/-- Python subscript `j[k]` on a decoded JSON value, as `Option`:
`none` when the Python expression raises (`KeyError` on a dict without the
key, `TypeError` on a non-dict). -/
def Json.getKey : Json → String → Option Json
  | .obj fields, k => (fields.find? (fun p => p.1 == k)).map (fun p => p.2)
  | _, _ => none

/-- Python subscript `j[i]` with an integer index, as `Option`: `none` when
the Python expression raises (`IndexError` on a short list, `KeyError` /
`TypeError` otherwise).  (Python indexing of a decoded JSON *string* returns
a one-character string, on which the subsequent `["message"]` subscript of
the extraction chain raises anyway, so mapping it to `none` here leaves the
composite `extractContent` unchanged.) -/
def Json.getIdx : Json → Nat → Option Json
  | .arr elems, i => elems.get? i
  | _, _ => none

/-- `response.json()["choices"][0]["message"]["content"]`, src/main.py
line 65: `some text` when the subscript chain yields the string `text`,
`none` when any subscript raises.  A non-string value at `content` is also
mapped to `none`: Python would pass it to `reply_text`, whose send the
Telegram API rejects, landing in the same `except Exception` branch. -/
def extractContent (j : Json) : Option String :=
  match (((j.getKey "choices").bind (fun c => c.getIdx 0)).bind
      (fun c0 => c0.getKey "message")).bind (fun m => m.getKey "content") with
  | some (Json.str s) => some s
  | _ => none

/-- The raw body of an HTTP response: either it decodes as JSON or
`response.json()` raises with the given decode-error text. -/
inductive RawBody where
  | json (j : Json)
  | invalid (decodeErr : String)
deriving Repr

/-- Behaviour of the outbound `requests.post` call: either a response with a
status code, reason phrase and body arrived, or the call raised a
transport-level `requests.exceptions.RequestException` (connection error,
timeout) whose `str` is `errText`. -/
inductive HttpResult where
  | response (status : Nat) (reason : String) (body : RawBody)
  | failure (errText : String)
deriving Repr

/-- The parameters of one outbound `requests.post` invocation,
src/main.py lines 55-61. -/
structure HttpRequest where
  url : String
  authHeader : String
  contentType : String
  data : CompletionRequest
  timeout : Nat
deriving Repr, DecidableEq

/-- The exception classification the handler's two `except` clauses
distinguish: `requests.exceptions.RequestException` (and its subclasses)
against every other exception. -/
inductive PyExc where
  | requestException (msg : String)
  | otherException (msg : String)
deriving Repr, DecidableEq

/-- One chat message sent by the handler, with whether it was sent with
`parse_mode=ParseMode.MARKDOWN_V2` (only the success reply is,
src/main.py lines 69-72). -/
structure Sent where
  text : String
  markdownV2 : Bool
deriving Repr, DecidableEq

/-- How the handler invocation ended: a normal return, or an exception
escaping the handler. -/
inductive Outcome where
  | returned
  | raised (e : PyExc)
deriving Repr, DecidableEq

/-- The observable trace of one handler invocation. -/
structure HandlerTrace where
  sends : List Sent
  httpCalls : List HttpRequest
  outcome : Outcome
deriving Repr, DecidableEq

/-- Oracle for the handler's three external effects: whether the
acknowledgment `reply_text` at line 45 raises (and with what message), the
behaviour of the `requests.post` call at line 61, and whether the success
reply `reply_text` at lines 69-72 raises (e.g. the Telegram API rejecting
the model's markup). -/
structure Oracles where
  ackExc : Option String
  httpResult : HttpResult
  deliverExc : Option String
deriving Repr

/-- The `data` dictionary of src/main.py lines 48-54: the fixed system
message followed by the user's text, verbatim. -/
def composeRequest (model user_request : String) : CompletionRequest :=
  { model := model
  , messages :=
      [ { role := "system", content := SYSTEM_PROMPT }
      , { role := "user", content := user_request } ] }

/-- The message of the HTTPError raised by `Response.raise_for_status` for a
status in [400, 600) (format of requests' `Response.raise_for_status`):
`"<status> Client Error: <reason> for url: <url>"` below 500, `Server Error`
from 500. -/
def raise_for_status_msg (status : Nat) (reason : String) (url : String) : String :=
  toString status ++ (if status < 500 then " Client Error: " else " Server Error: ") ++
    reason ++ " for url: " ++ url

/-- The body of the `try` block, src/main.py lines 47-72: either the
exception it raises, classified by which `except` clause catches it, or the
list of sends it performs.  `raise_for_status` raises HTTPError (a
RequestException) for statuses in [400, 600); `response.json()` on an
undecodable body raises `requests.exceptions.JSONDecodeError`, which since
requests 2.27 derives from `InvalidJSONError`, itself a `RequestException`;
a failing subscript chain raises KeyError/IndexError/TypeError (not
RequestExceptions); a failing Telegram send raises a telegram error (not a
RequestException). -/
def tryBody (o : Oracles) : Except PyExc (List Sent) :=
  match o.httpResult with
  | .failure err => .error (.requestException err)
  | .response status reason body =>
    if 400 ≤ status ∧ status < 600 then
      .error (.requestException (raise_for_status_msg status reason OPENROUTER_URL))
    else
      match body with
      | .invalid decodeErr => .error (.requestException decodeErr)
      | .json j =>
        match extractContent j with
        | none => .error (.otherException "subscript chain raised")
        | some text =>
          match o.deliverExc with
          | some e => .error (.otherException e)
          | none => .ok [{ text := text, markdownV2 := true }]

/-- The handler `generate_document`, src/main.py lines 35-79, as a trace
transformer.  Control flow in the source: the configuration check and early
return (lines 40-42); the acknowledgment send (line 45), *outside* the
`try`, so an exception there escapes the handler; the `try` block (lines
47-72) issuing exactly one `requests.post` with `timeout=60`; the
`except requests.exceptions.RequestException` branch replying with the error
text appended (lines 74-76); the `except Exception` branch replying with the
fixed generic text (lines 77-79). -/
def generate_document (cfg : Config) (user_request : String) (o : Oracles) :
    HandlerTrace :=
  if pyFalsy cfg.OPENROUTER_KEY || pyFalsy cfg.MODEL_NAME then
    { sends := [{ text := configErrorMsg, markdownV2 := false }]
    , httpCalls := [], outcome := .returned }
  else
    match o.ackExc with
    | some e =>
        { sends := [], httpCalls := [], outcome := .raised (.otherException e) }
    | none =>
      let call : HttpRequest :=
        { url := OPENROUTER_URL
        , authHeader := "Bearer " ++ cfg.OPENROUTER_KEY.getD ""
        , contentType := "application/json"
        , data := composeRequest (cfg.MODEL_NAME.getD "") user_request
        , timeout := 60 }
      let ackSent : Sent := { text := ackMsg, markdownV2 := false }
      match tryBody o with
      | .ok ss =>
          { sends := ackSent :: ss, httpCalls := [call], outcome := .returned }
      | .error (.requestException m) =>
          { sends := [ackSent, { text := transportErrLead ++ m, markdownV2 := false }]
          , httpCalls := [call], outcome := .returned }
      | .error (.otherException _) =>
          { sends := [ackSent, { text := genericErrMsg, markdownV2 := false }]
          , httpCalls := [call], outcome := .returned }

/-- The provider body `\x7b"choices":[\x7b"message":\x7b"content":"Hello"\x7d\x7d]\x7d`
from the spec's success example, as a JSON value. -/
def helloBody : Json :=
  .obj [("choices", .arr [.obj [("message", .obj [("content", .str "Hello")])]])]

/-- An environment in which every variable is set except `MODEL`. -/
def envMissingModel : String → Option String :=
  fun k => if k == "MODEL" then none else some "set"

/-! ## Helper lemmas -/

theorem pyFalsy_some_of_ne {s : String} (h : s ≠ "") : pyFalsy (some s) = false := by
  simp [pyFalsy, h]

/-- With the key or the model global unset, the handler replies with the
configuration error and returns before any effect. -/
theorem config_error_trace (cfg : Config) (u : String) (o : Oracles)
    (h : cfg.OPENROUTER_KEY = none ∨ cfg.MODEL_NAME = none) :
    generate_document cfg u o =
      { sends := [{ text := configErrorMsg, markdownV2 := false }]
      , httpCalls := [], outcome := .returned } := by
  rcases h with h | h <;> simp [generate_document, h, pyFalsy]

theorem getKey_eq_none_of_absent {fields : List (String × Json)} {k : String}
    (h : ∀ p ∈ fields, p.1 ≠ k) : (Json.obj fields).getKey k = none := by
  simp only [Json.getKey, Option.map_eq_none', List.find?_eq_none]
  intro p hp
  simpa using h p hp

theorem extractContent_obj_no_choices {fields : List (String × Json)}
    (h : ∀ p ∈ fields, p.1 ≠ "choices") :
    extractContent (Json.obj fields) = none := by
  simp [extractContent, getKey_eq_none_of_absent h]

/-! ## Claims -/

/-- C1: for every non-empty user text, the composed completion request
contains exactly two messages in the order [system, user], the system
message's content being the fixed built-in system instruction and the user
message's content being the input text verbatim (no trimming, no
escaping). -/
theorem composeRequest_messages_system_user (model u : String) (hu : u ≠ "") :
    (composeRequest model u).messages.length = 2 ∧
      (composeRequest model u).messages =
        [{ role := "system", content := SYSTEM_PROMPT },
         { role := "user", content := u }] :=
  ⟨rfl, rfl⟩

/-- Witness for C1 at the input "hi". -/
theorem composeRequest_messages_system_user_witness :
    ("hi" : String) ≠ "" ∧
      ((composeRequest "mistral" "hi").messages.length = 2 ∧
        (composeRequest "mistral" "hi").messages =
          [{ role := "system", content := SYSTEM_PROMPT },
           { role := "user", content := "hi" }]) :=
  ⟨by decide, composeRequest_messages_system_user "mistral" "hi" (by decide)⟩

/-- C2: when the provider API key or the model identifier is unset, the
handler issues no network call and replies with only the fixed
configuration-error message ("Ошибка: Не настроен ключ OpenRouter API или
имя модели.", the source's rendering of "API key or model not
configured"), returning normally. -/
theorem generate_document_missing_config (cfg : Config) (u : String) (o : Oracles)
    (h : cfg.OPENROUTER_KEY = none ∨ cfg.MODEL_NAME = none) :
    (generate_document cfg u o).httpCalls = [] ∧
      (generate_document cfg u o).sends =
        [{ text := configErrorMsg, markdownV2 := false }] ∧
      (generate_document cfg u o).outcome = .returned := by
  rw [config_error_trace cfg u o h]
  exact ⟨rfl, rfl, rfl⟩

/-- Witness for C2: the key unset, the model set. -/
theorem generate_document_missing_config_witness :
    ((⟨none, some "m"⟩ : Config).OPENROUTER_KEY = none ∨
        (⟨none, some "m"⟩ : Config).MODEL_NAME = none) ∧
      ((generate_document ⟨none, some "m"⟩ "u" ⟨none, .failure "x", none⟩).httpCalls = [] ∧
        (generate_document ⟨none, some "m"⟩ "u" ⟨none, .failure "x", none⟩).sends =
          [{ text := configErrorMsg, markdownV2 := false }] ∧
        (generate_document ⟨none, some "m"⟩ "u" ⟨none, .failure "x", none⟩).outcome =
          .returned) :=
  ⟨Or.inl rfl,
    generate_document_missing_config ⟨none, some "m"⟩ "u" ⟨none, .failure "x", none⟩
      (Or.inl rfl)⟩

/-- C3: when the provider responds 200 with a body from which
`choices[0].message.content` extracts the string `text`, the handler sends
the acknowledgment and then exactly `text`, unchanged, as the (MarkdownV2)
reply, and returns normally; in particular the body
with content "Hello" yields exactly "Hello" (see the witness). -/
theorem generate_document_success_text_verbatim (key model u reason text : String)
    (j : Json) (hk : key ≠ "") (hm : model ≠ "")
    (hx : extractContent j = some text) :
    (generate_document ⟨some key, some model⟩ u
        ⟨none, .response 200 reason (.json j), none⟩).sends =
      [{ text := ackMsg, markdownV2 := false },
       { text := text, markdownV2 := true }] ∧
    (generate_document ⟨some key, some model⟩ u
        ⟨none, .response 200 reason (.json j), none⟩).outcome = .returned := by
  simp [generate_document, tryBody, pyFalsy, hk, hm, hx]

/-- Witness for C3 at the spec's example body, extracting exactly "Hello". -/
theorem generate_document_success_text_verbatim_witness :
    (("k" : String) ≠ "" ∧ ("m" : String) ≠ "" ∧
        extractContent helloBody = some "Hello") ∧
      ((generate_document ⟨some "k", some "m"⟩ "u"
          ⟨none, .response 200 "OK" (.json helloBody), none⟩).sends =
        [{ text := ackMsg, markdownV2 := false },
         { text := "Hello", markdownV2 := true }] ∧
      (generate_document ⟨some "k", some "m"⟩ "u"
          ⟨none, .response 200 "OK" (.json helloBody), none⟩).outcome = .returned) :=
  ⟨⟨by decide, by decide, rfl⟩,
    generate_document_success_text_verbatim "k" "m" "u" "OK" "Hello" helloBody
      (by decide) (by decide) rfl⟩

/-- C4: when the provider responds 200 with a JSON object body lacking the
`choices` key, the handler replies with the fixed generic message and
returns normally — the KeyError is caught inside the handler and nothing
propagates past the invocation boundary. -/
theorem generate_document_missing_choices (key model u reason : String)
    (fields : List (String × Json)) (dExc : Option String)
    (hk : key ≠ "") (hm : model ≠ "")
    (hch : ∀ p ∈ fields, p.1 ≠ "choices") :
    (generate_document ⟨some key, some model⟩ u
        ⟨none, .response 200 reason (.json (.obj fields)), dExc⟩).sends =
      [{ text := ackMsg, markdownV2 := false },
       { text := genericErrMsg, markdownV2 := false }] ∧
    (generate_document ⟨some key, some model⟩ u
        ⟨none, .response 200 reason (.json (.obj fields)), dExc⟩).outcome =
      .returned := by
  simp [generate_document, tryBody, pyFalsy, hk, hm, extractContent_obj_no_choices hch]

/-- Witness for C4 at the empty-object body. -/
theorem generate_document_missing_choices_witness :
    (("k" : String) ≠ "" ∧ ("m" : String) ≠ "" ∧
        (∀ p ∈ ([] : List (String × Json)), p.1 ≠ "choices")) ∧
      ((generate_document ⟨some "k", some "m"⟩ "u"
          ⟨none, .response 200 "OK" (.json (.obj [])), none⟩).sends =
        [{ text := ackMsg, markdownV2 := false },
         { text := genericErrMsg, markdownV2 := false }] ∧
      (generate_document ⟨some "k", some "m"⟩ "u"
          ⟨none, .response 200 "OK" (.json (.obj [])), none⟩).outcome = .returned) :=
  ⟨⟨by decide, by decide, by simp⟩,
    generate_document_missing_choices "k" "m" "u" "OK" [] none
      (by decide) (by decide) (by simp)⟩

/-- C5 counterexample: with the provider responding 200 and an unparseable
body, the user-facing reply is NOT the fixed retry-suggesting generic
message: `response.json()` raises `requests.exceptions.JSONDecodeError`,
which is a `RequestException` (requests >= 2.27), so the first `except`
clause replies with the transport-style message carrying the decode-error
detail. -/
theorem unparseable_body_not_generic :
    (generate_document ⟨some "k", some "m"⟩ "u"
        ⟨none, .response 200 "OK"
          (.invalid "Expecting value: line 1 column 1 (char 0)"), none⟩).sends =
      [{ text := ackMsg, markdownV2 := false },
       { text := transportErrLead ++ "Expecting value: line 1 column 1 (char 0)",
         markdownV2 := false }] ∧
    ∀ s ∈ (generate_document ⟨some "k", some "m"⟩ "u"
        ⟨none, .response 200 "OK"
          (.invalid "Expecting value: line 1 column 1 (char 0)"), none⟩).sends,
      s.text ≠ genericErrMsg := by
  refine ⟨rfl, ?_⟩
  intro s hs
  rw [show (generate_document ⟨some "k", some "m"⟩ "u"
      ⟨none, .response 200 "OK"
        (.invalid "Expecting value: line 1 column 1 (char 0)"), none⟩).sends =
      [{ text := ackMsg, markdownV2 := false },
       { text := transportErrLead ++ "Expecting value: line 1 column 1 (char 0)",
         markdownV2 := false }] from rfl] at hs
  simp only [List.mem_cons, List.not_mem_nil, or_false] at hs
  rcases hs with rfl | rfl <;> decide

/-- C5 amended: with a success status, a valid-JSON body whose
`choices[0].message.content` path is absent or malformed yields the fixed
generic retry-suggesting reply (the detail is only logged), and the handler
returns normally; an unparseable body instead yields the transport-style
reply carrying the decode-error text, because `JSONDecodeError` is a
`RequestException` under requests >= 2.27. -/
theorem generate_document_parse_error_classification
    (key model u reason decodeErr : String) (j : Json) (dExc : Option String)
    (hk : key ≠ "") (hm : model ≠ "") (hx : extractContent j = none) :
    ((generate_document ⟨some key, some model⟩ u
        ⟨none, .response 200 reason (.json j), dExc⟩).sends =
      [{ text := ackMsg, markdownV2 := false },
       { text := genericErrMsg, markdownV2 := false }] ∧
    (generate_document ⟨some key, some model⟩ u
        ⟨none, .response 200 reason (.json j), dExc⟩).outcome = .returned) ∧
    (generate_document ⟨some key, some model⟩ u
        ⟨none, .response 200 reason (.invalid decodeErr), dExc⟩).sends =
      [{ text := ackMsg, markdownV2 := false },
       { text := transportErrLead ++ decodeErr, markdownV2 := false }] := by
  refine ⟨?_, ?_⟩
  · simp [generate_document, tryBody, pyFalsy, hk, hm, hx]
  · simp [generate_document, tryBody, pyFalsy, hk, hm]

/-- Witness for the amended C5 at the empty-object body and a concrete
decode error. -/
theorem generate_document_parse_error_classification_witness :
    (("k" : String) ≠ "" ∧ ("m" : String) ≠ "" ∧
        extractContent (Json.obj []) = none) ∧
      (((generate_document ⟨some "k", some "m"⟩ "u"
          ⟨none, .response 200 "OK" (.json (.obj [])), none⟩).sends =
        [{ text := ackMsg, markdownV2 := false },
         { text := genericErrMsg, markdownV2 := false }] ∧
      (generate_document ⟨some "k", some "m"⟩ "u"
          ⟨none, .response 200 "OK" (.json (.obj [])), none⟩).outcome = .returned) ∧
      (generate_document ⟨some "k", some "m"⟩ "u"
          ⟨none, .response 200 "OK" (.invalid "bad json"), none⟩).sends =
        [{ text := ackMsg, markdownV2 := false },
         { text := transportErrLead ++ "bad json", markdownV2 := false }]) :=
  ⟨⟨by decide, by decide, rfl⟩,
    generate_document_parse_error_classification "k" "m" "u" "OK" "bad json"
      (Json.obj []) none (by decide) (by decide) rfl⟩

/-- C6: a transport-level failure (connection error, timeout) or a
non-success HTTP status in [400, 600) — e.g. 500 — makes the handler reply
with the transport-error message, which is the fixed text followed by the
underlying error text; no generated text is returned (every send of the
trace is a plain, non-MarkdownV2 message and the reply list is exactly
acknowledgment-then-error). -/
theorem generate_document_transport_error (key model u err reason : String)
    (status : Nat) (body : RawBody) (dExc : Option String)
    (hk : key ≠ "") (hm : model ≠ "") (hs : 400 ≤ status) (hs' : status < 600) :
    ((generate_document ⟨some key, some model⟩ u ⟨none, .failure err, dExc⟩).sends =
        [{ text := ackMsg, markdownV2 := false },
         { text := transportErrLead ++ err, markdownV2 := false }] ∧
      ∀ s ∈ (generate_document ⟨some key, some model⟩ u
          ⟨none, .failure err, dExc⟩).sends, s.markdownV2 = false) ∧
    ((generate_document ⟨some key, some model⟩ u
          ⟨none, .response status reason body, dExc⟩).sends =
        [{ text := ackMsg, markdownV2 := false },
         { text := transportErrLead ++ raise_for_status_msg status reason OPENROUTER_URL,
           markdownV2 := false }] ∧
      ∀ s ∈ (generate_document ⟨some key, some model⟩ u
          ⟨none, .response status reason body, dExc⟩).sends, s.markdownV2 = false) := by
  constructor
  · constructor
    · simp [generate_document, tryBody, pyFalsy, hk, hm]
    · intro s hs
      have h : (generate_document ⟨some key, some model⟩ u
          ⟨none, .failure err, dExc⟩).sends =
          [{ text := ackMsg, markdownV2 := false },
           { text := transportErrLead ++ err, markdownV2 := false }] := by
        simp [generate_document, tryBody, pyFalsy, hk, hm]
      rw [h] at hs
      simp only [List.mem_cons, List.not_mem_nil, or_false] at hs
      rcases hs with rfl | rfl <;> rfl
  · constructor
    · simp [generate_document, tryBody, pyFalsy, hk, hm, hs, hs']
    · intro s hsend
      have h : (generate_document ⟨some key, some model⟩ u
          ⟨none, .response status reason body, dExc⟩).sends =
          [{ text := ackMsg, markdownV2 := false },
           { text := transportErrLead ++
               raise_for_status_msg status reason OPENROUTER_URL,
             markdownV2 := false }] := by
        simp [generate_document, tryBody, pyFalsy, hk, hm, hs, hs']
      rw [h] at hsend
      simp only [List.mem_cons, List.not_mem_nil, or_false] at hsend
      rcases hsend with rfl | rfl <;> rfl

/-- Witness for C6 at a connection error and at HTTP 500. -/
theorem generate_document_transport_error_witness :
    (("k" : String) ≠ "" ∧ ("m" : String) ≠ "" ∧
        400 ≤ 500 ∧ 500 < 600) ∧
      (((generate_document ⟨some "k", some "m"⟩ "u"
            ⟨none, .failure "Connection refused", none⟩).sends =
          [{ text := ackMsg, markdownV2 := false },
           { text := transportErrLead ++ "Connection refused", markdownV2 := false }] ∧
        ∀ s ∈ (generate_document ⟨some "k", some "m"⟩ "u"
            ⟨none, .failure "Connection refused", none⟩).sends, s.markdownV2 = false) ∧
      ((generate_document ⟨some "k", some "m"⟩ "u"
            ⟨none, .response 500 "Internal Server Error" (.json .null), none⟩).sends =
          [{ text := ackMsg, markdownV2 := false },
           { text := transportErrLead ++
               raise_for_status_msg 500 "Internal Server Error" OPENROUTER_URL,
             markdownV2 := false }] ∧
        ∀ s ∈ (generate_document ⟨some "k", some "m"⟩ "u"
            ⟨none, .response 500 "Internal Server Error" (.json .null), none⟩).sends,
          s.markdownV2 = false)) :=
  ⟨⟨by decide, by decide, by decide, by decide⟩,
    generate_document_transport_error "k" "m" "u" "Connection refused"
      "Internal Server Error" 500 (.json .null) none
      (by decide) (by decide) (by decide) (by decide)⟩

/-- C7 counterexample: with both configuration values set but the
acknowledgment send failing, the handler lets the exception escape and
issues no network call — the acknowledgment's failure aborts the main flow,
contradicting the claim that it never does (the send at src/main.py line 45
is awaited outside the try block). -/
theorem ack_failure_aborts :
    generate_document ⟨some "k", some "m"⟩ "u"
        ⟨some "Telegram send failed", .failure "unreached", none⟩ =
      { sends := [], httpCalls := []
      , outcome := .raised (.otherException "Telegram send failed") } :=
  rfl

/-- C7 amended: the acknowledgment is sent after the configuration check
and before the try block; when it fails, the exception propagates out of
the handler and the invocation aborts without issuing the network call or
sending any further message (so its failure IS the invocation's outcome,
rather than being swallowed fire-and-forget). -/
theorem generate_document_ack_failure (key model u e : String)
    (r : HttpResult) (dExc : Option String)
    (hk : key ≠ "") (hm : model ≠ "") :
    generate_document ⟨some key, some model⟩ u ⟨some e, r, dExc⟩ =
      { sends := [], httpCalls := []
      , outcome := .raised (.otherException e) } := by
  simp [generate_document, pyFalsy, hk, hm]

/-- Witness for the amended C7. -/
theorem generate_document_ack_failure_witness :
    (("k" : String) ≠ "" ∧ ("m" : String) ≠ "") ∧
      generate_document ⟨some "k", some "m"⟩ "u"
          ⟨some "Flood control exceeded", .failure "unreached", none⟩ =
        { sends := [], httpCalls := []
        , outcome := .raised (.otherException "Flood control exceeded") } :=
  ⟨⟨by decide, by decide⟩,
    generate_document_ack_failure "k" "m" "u" "Flood control exceeded"
      (.failure "unreached") none (by decide) (by decide)⟩

/-- C8 counterexample: in an environment where every variable is set except
`MODEL`, the model-identifier global is not any fixed built-in value — it is
unset (`None`): `MODEL_NAME = os.environ.get("MODEL")` on src/main.py
line 24 passes no default (contrast `PORT` on line 20). -/
theorem MODEL_NAME_no_default :
    ¬ ∃ d : String, (Config.ofEnv envMissingModel).MODEL_NAME = some d := by
  rintro ⟨d, h⟩
  simp [Config.ofEnv, os_environ_get, envMissingModel] at h

/-- C8 amended: when `MODEL` is unset at startup, the model identifier is
itself unset (there is no built-in default), and with it unset every
invocation of the handler replies with the fixed configuration-error
message and issues no network call. -/
theorem MODEL_NAME_unset_config_error (env : String → Option String)
    (h : env "MODEL" = none) :
    (Config.ofEnv env).MODEL_NAME = none ∧
      ∀ (key : Option String) (u : String) (o : Oracles),
        (generate_document ⟨key, (Config.ofEnv env).MODEL_NAME⟩ u o).sends =
            [{ text := configErrorMsg, markdownV2 := false }] ∧
          (generate_document ⟨key, (Config.ofEnv env).MODEL_NAME⟩ u o).httpCalls =
            [] := by
  have hm : (Config.ofEnv env).MODEL_NAME = none := h
  refine ⟨hm, fun key u o => ?_⟩
  rw [config_error_trace ⟨key, (Config.ofEnv env).MODEL_NAME⟩ u o (Or.inr hm)]
  exact ⟨rfl, rfl⟩

/-- Witness for the amended C8 at the concrete environment missing only
`MODEL`. -/
theorem MODEL_NAME_unset_config_error_witness :
    envMissingModel "MODEL" = none ∧
      ((Config.ofEnv envMissingModel).MODEL_NAME = none ∧
        ∀ (key : Option String) (u : String) (o : Oracles),
          (generate_document ⟨key, (Config.ofEnv envMissingModel).MODEL_NAME⟩
              u o).sends = [{ text := configErrorMsg, markdownV2 := false }] ∧
            (generate_document ⟨key, (Config.ofEnv envMissingModel).MODEL_NAME⟩
              u o).httpCalls = []) :=
  ⟨by simp [envMissingModel],
    MODEL_NAME_unset_config_error envMissingModel (by simp [envMissingModel])⟩

/-- C9: every outbound HTTP call the handler issues carries `timeout=60`
(src/main.py line 61), and a transport-level `RequestException` — the class
of `requests.exceptions.Timeout`, raised when no response arrives within
the bound — ends the invocation with the transport-error reply rather than
an indefinite wait. -/
theorem generate_document_timeout_policy (cfg : Config) (u : String)
    (o : Oracles) (c : HttpRequest)
    (hc : c ∈ (generate_document cfg u o).httpCalls)
    (key model errText : String) (dExc : Option String)
    (hk : key ≠ "") (hm : model ≠ "") :
    c.timeout = 60 ∧
      (generate_document ⟨some key, some model⟩ u
          ⟨none, .failure errText, dExc⟩).sends =
        [{ text := ackMsg, markdownV2 := false },
         { text := transportErrLead ++ errText, markdownV2 := false }] ∧
      (generate_document ⟨some key, some model⟩ u
          ⟨none, .failure errText, dExc⟩).outcome = .returned := by
  refine ⟨?_, ?_, ?_⟩
  · unfold generate_document at hc
    split at hc
    · simp at hc
    · split at hc
      · simp at hc
      · split at hc <;>
          (simp only [List.mem_cons, List.not_mem_nil, or_false,
              List.mem_singleton] at hc) <;>
          (subst hc; rfl)
  · simp [generate_document, tryBody, pyFalsy, hk, hm]
  · simp [generate_document, tryBody, pyFalsy, hk, hm]

/-- Witness for C9: the single call issued on the timeout trace has
timeout 60, and the timeout is answered with the transport-error reply. -/
theorem generate_document_timeout_policy_witness :
    ({ url := OPENROUTER_URL, authHeader := "Bearer " ++ "k"
     , contentType := "application/json"
     , data := composeRequest "m" "u", timeout := 60 } : HttpRequest) ∈
        (generate_document ⟨some "k", some "m"⟩ "u"
          ⟨none, .failure "Read timed out. (read timeout=60)", none⟩).httpCalls ∧
      (({ url := OPENROUTER_URL, authHeader := "Bearer " ++ "k"
        , contentType := "application/json"
        , data := composeRequest "m" "u", timeout := 60 } : HttpRequest).timeout = 60 ∧
      (generate_document ⟨some "k", some "m"⟩ "u"
          ⟨none, .failure "Read timed out. (read timeout=60)", none⟩).sends =
        [{ text := ackMsg, markdownV2 := false },
         { text := transportErrLead ++ "Read timed out. (read timeout=60)",
           markdownV2 := false }] ∧
      (generate_document ⟨some "k", some "m"⟩ "u"
          ⟨none, .failure "Read timed out. (read timeout=60)", none⟩).outcome =
        .returned) :=
  ⟨List.mem_singleton.mpr rfl,
    generate_document_timeout_policy ⟨some "k", some "m"⟩ "u"
      ⟨none, .failure "Read timed out. (read timeout=60)", none⟩
      { url := OPENROUTER_URL, authHeader := "Bearer " ++ "k"
      , contentType := "application/json"
      , data := composeRequest "m" "u", timeout := 60 }
      (List.mem_singleton.mpr rfl)
      "k" "m" "Read timed out. (read timeout=60)" none (by decide) (by decide)⟩

/-- C10: when the text is successfully extracted but the final delivery to
the chat raises (e.g. the markup parser rejecting the model's output), the
`except Exception` clause catches it and the handler sends the fixed
generic retry-suggesting message and returns normally — nothing propagates
past the invocation boundary. -/
theorem generate_document_delivery_failure (key model u reason text e : String)
    (j : Json) (hk : key ≠ "") (hm : model ≠ "")
    (hx : extractContent j = some text) :
    (generate_document ⟨some key, some model⟩ u
        ⟨none, .response 200 reason (.json j), some e⟩).sends =
      [{ text := ackMsg, markdownV2 := false },
       { text := genericErrMsg, markdownV2 := false }] ∧
    (generate_document ⟨some key, some model⟩ u
        ⟨none, .response 200 reason (.json j), some e⟩).outcome = .returned := by
  simp [generate_document, tryBody, pyFalsy, hk, hm, hx]

/-- Witness for C10 at the "Hello" body with the Telegram send rejecting
the entities. -/
theorem generate_document_delivery_failure_witness :
    (("k" : String) ≠ "" ∧ ("m" : String) ≠ "" ∧
        extractContent helloBody = some "Hello") ∧
      ((generate_document ⟨some "k", some "m"⟩ "u"
          ⟨none, .response 200 "OK" (.json helloBody),
            some "Can't parse entities"⟩).sends =
        [{ text := ackMsg, markdownV2 := false },
         { text := genericErrMsg, markdownV2 := false }] ∧
      (generate_document ⟨some "k", some "m"⟩ "u"
          ⟨none, .response 200 "OK" (.json helloBody),
            some "Can't parse entities"⟩).outcome = .returned) :=
  ⟨⟨by decide, by decide, rfl⟩,
    generate_document_delivery_failure "k" "m" "u" "OK" "Hello"
      "Can't parse entities" helloBody (by decide) (by decide) rfl⟩

end AiTelegramAgent
